import Mathlib

/-!
# Verification of `verify_wesco_cleanup.py`

A shallow embedding of the WESCO cleanup verification script of the
Price-Cal repository, together with theorems settling the specification
claims about it.

The script reads a fixed list of JSON files (missing files are skipped),
filters each file's `branches` array by substring matching on the
`chain`/`name` fields, aggregates the matches, deduplicates them by a
`city + "-" + address` key, and runs a fixed checklist, returning an
overall boolean; the process exits 0 on success and 1 otherwise.

Python values that may be absent (`dict.get` returning `None`) are
modelled as `Option String`.  The substring tests in the validation phase
(`sub in e['address']`) raise an uncaught `TypeError` when the address is
`None`; this is modelled with `Except Unit`.
-/

namespace Wesco

/-- Python `sub in hay` on strings: case-sensitive substring containment. -/
def strContains (hay sub : String) : Bool := decide (sub.data <:+: hay.data)

/-- One element of a file's `branches` array.  Only the fields the script
consumes are modelled; each may be absent (`none`). -/
structure Branch where
  name : Option String
  chain : Option String
  city : Option String
  address1 : Option String
  phone : Option String
  last_verified : Option String
  operatingName : Option String
deriving DecidableEq

/-- The dict appended to `all_wesco_entries` for each matching branch
(lines 69-78 of the script): the branch's consumed fields plus the
source-file provenance. -/
structure Entry where
  file : String
  name : Option String
  chain : Option String
  city : Option String
  address : Option String
  phone : Option String
  verified : Option String
  operating_name : Option String
deriving DecidableEq

/-- The filter of lines 56-61: `'WESCO' in b.get('chain', '') or
'WESCO' in b.get('name', '') or 'KVA' in b.get('name', '')`.
A missing field defaults to the empty string. -/
def branchMatches (b : Branch) : Bool :=
  strContains (b.chain.getD "") "WESCO" || strContains (b.name.getD "") "WESCO" ||
    strContains (b.name.getD "") "KVA"

/-- Build the aggregated entry dict for a matching branch (lines 69-78). -/
def toEntry (fname : String) (b : Branch) : Entry :=
  { file := fname, name := b.name, chain := b.chain, city := b.city,
    address := b.address1, phone := b.phone, verified := b.last_verified,
    operating_name := b.operatingName }

/-- One present input file: its path (relative, as printed) and its
`branches` array (`data.get('branches', [])`). -/
structure FileData where
  fname : String
  branches : List Branch
deriving DecidableEq

/-- The whole input environment of one run: whether the base directory
`supplyfind-updates/us/co` exists, and the fixed ordered list of input
files, each either present (`some`) or missing (`none`). -/
structure Dataset where
  baseDirExists : Bool
  files : List (Option FileData)
deriving DecidableEq

/-- The matched entries contributed by a single file, in intra-file order. -/
def matchedOfFile (fd : FileData) : List Entry :=
  (fd.branches.filter branchMatches).map (toEntry fd.fname)

/-- `all_wesco_entries` after the scanning loop (lines 46-83): missing
files are skipped, present files contribute their matches in file-list
order then intra-file order. -/
def allWescoEntries (files : List (Option FileData)) : List Entry :=
  (files.filterMap id).flatMap matchedOfFile

/-- Python f-string rendering of a possibly-`None` value. -/
def pyStr : Option String → String
  | none => "None"
  | some s => s

/-- The deduplication key `f"{entry['city']}-{entry['address']}"` (line 95). -/
def locKey (e : Entry) : String := pyStr e.city ++ "-" ++ pyStr e.address

/-- The loop body of lines 94-97, threading the `unique_locations` dict
(insertion-ordered, first key occurrence wins) through the entry list. -/
def dedupFrom (acc : List (String × Entry)) : List Entry → List (String × Entry)
  | [] => acc
  | e :: es =>
    if acc.any (fun p => p.1 == locKey e) then dedupFrom acc es
    else dedupFrom (acc ++ [(locKey e, e)]) es

/-- `unique_locations` (lines 93-97). -/
def dedup (es : List Entry) : List (String × Entry) := dedupFrom [] es

/-- `e['city'] == 'Denver' and '11198 E 45th' in e['address']` (and the
analogous Pueblo test): raises `TypeError` when the city matches but the
address is `None`. -/
def cityAddrTest (city sub : String) (e : Entry) : Except Unit Bool :=
  if e.city == some city then
    match e.address with
    | none => Except.error ()
    | some a => Except.ok (strContains a sub)
  else Except.ok false

/-- `addr in e['address']` (line 178): raises `TypeError` when the address
is `None`. -/
def addrTest (sub : String) (e : Entry) : Except Unit Bool :=
  match e.address with
  | none => Except.error ()
  | some a => Except.ok (strContains a sub)

/-- A Python list comprehension with a possibly-raising predicate:
entries are tested left to right, the first raised error aborts. -/
def filterE (p : Entry → Except Unit Bool) : List Entry → Except Unit (List Entry)
  | [] => Except.ok []
  | e :: es =>
    match p e with
    | Except.error u => Except.error u
    | Except.ok b =>
      match filterE p es with
      | Except.error u => Except.error u
      | Except.ok rest => Except.ok (if b then e :: rest else rest)

/-- The Denver consistency check, lines 118-147.  Returns the pair
(success contribution, warning emitted): the `operatingName` branch only
warns, it never fails the run. -/
def denverCheckFull : List Entry → Bool × Bool
  | [] => (false, false)
  | entry :: rest =>
    let all_consistent := (entry :: rest).all
      (fun e => e.name == some "KVA Supply Co" && e.chain == some "WESCO")
    if !all_consistent then (false, false)
    else if entry.name != some "KVA Supply Co" then (false, false)
    else if entry.chain != some "WESCO" then (false, false)
    else if entry.operating_name != some "KVA Supply Co" then (true, true)
    else (true, false)

/-- The Pueblo check, lines 155-166: exactly one entry, whose chain must
equal `"WESCO"`. -/
def puebloCheck : List Entry → Bool
  | [entry] => if entry.chain != some "WESCO" then false else true
  | _ => false

/-- The validation phase, lines 103-183, on the aggregated entry list:
the count check, the Denver check, the Pueblo check and the three
removed-address checks, each folded into the `success` flag; any
`TypeError` raised by a substring test aborts the phase. -/
def runChecks (entries : List Entry) : Except Unit Bool :=
  let unique_locations := dedup entries
  let success := true
  let success := if unique_locations.length != 2 then false else success
  match filterE (cityAddrTest "Denver" "11198 E 45th") entries with
  | Except.error u => Except.error u
  | Except.ok denver_kva =>
    let success := if (denverCheckFull denver_kva).1 then success else false
    match filterE (cityAddrTest "Pueblo" "115 S Main") entries with
    | Except.error u => Except.error u
    | Except.ok pueblo_wesco =>
      let success := if puebloCheck pueblo_wesco then success else false
      match filterE (addrTest "756 S Jason") entries with
      | Except.error u => Except.error u
      | Except.ok found1 =>
        let success := if found1.isEmpty then success else false
        match filterE (addrTest "6883 E 47th") entries with
        | Except.error u => Except.error u
        | Except.ok found2 =>
          let success := if found2.isEmpty then success else false
          match filterE (addrTest "133 Commerce") entries with
          | Except.error u => Except.error u
          | Except.ok found3 =>
            let success := if found3.isEmpty then success else false
            Except.ok success

/-- Observable outcome of one run of the script. -/
inductive Outcome where
  | envError : Outcome
  | typeError : Outcome
  | completed : Bool → Outcome
deriving DecidableEq

/-- `verify_wesco_cleanup()` (lines 18-202): early return on a missing
base directory, otherwise scan, aggregate and validate; an uncaught
`TypeError` in the validation phase aborts the run. -/
def verify_wesco_cleanup (d : Dataset) : Outcome :=
  if !d.baseDirExists then Outcome.envError
  else
    match runChecks (allWescoEntries d.files) with
    | Except.error _ => Outcome.typeError
    | Except.ok s => Outcome.completed s

/-- Process exit status (lines 204-207); an uncaught exception also makes
the interpreter exit with status 1. -/
def exitStatus : Outcome → Nat
  | Outcome.envError => 1
  | Outcome.typeError => 1
  | Outcome.completed s => if s then 0 else 1

/-! ## Total forms of the individual checklist items

On entry lists where no substring test raises, each comprehension of the
validation phase equals a plain `List.filter` by a boolean predicate, and
the overall flag is the conjunction of six independent items. -/

/-- Total form of `cityAddrTest`, valid when no `TypeError` occurs. -/
def cityAddrMatches (city sub : String) (e : Entry) : Bool :=
  e.city == some city && strContains (e.address.getD "") sub

/-- Total form of `addrTest`, valid when no `TypeError` occurs. -/
def addrMatches (sub : String) (e : Entry) : Bool :=
  strContains (e.address.getD "") sub

/-- Checklist item 1: exactly 2 unique deduplicated locations. -/
def check_unique_count (es : List Entry) : Bool := (dedup es).length == 2

/-- Checklist item 2: the Denver consistency check. -/
def check_denver (es : List Entry) : Bool :=
  (denverCheckFull (es.filter (cityAddrMatches "Denver" "11198 E 45th"))).1

/-- Checklist item 3: the Pueblo check. -/
def check_pueblo (es : List Entry) : Bool :=
  puebloCheck (es.filter (cityAddrMatches "Pueblo" "115 S Main"))

/-- Checklist items 4-6: no aggregated entry at a removed address. -/
def check_removed (sub : String) (es : List Entry) : Bool :=
  (es.filter (addrMatches sub)).isEmpty

/-- The conjunction of all six checklist items. -/
def allChecks (es : List Entry) : Bool :=
  check_unique_count es && check_denver es && check_pueblo es &&
    check_removed "756 S Jason" es && check_removed "6883 E 47th" es &&
    check_removed "133 Commerce" es

/-! ## Sample data

Concrete branches, entries and datasets used in witnesses and
counterexamples. -/

/-- The expected post-cleanup Denver branch. -/
def bDenver : Branch :=
  { name := some "KVA Supply Co", chain := some "WESCO", city := some "Denver",
    address1 := some "11198 E 45th Ave", phone := some "303-555-0100",
    last_verified := some "2024-01-15", operatingName := some "KVA Supply Co" }

/-- The expected post-cleanup Pueblo branch. -/
def bPueblo : Branch :=
  { name := some "WESCO", chain := some "WESCO", city := some "Pueblo",
    address1 := some "115 S Main St", phone := some "719-555-0144",
    last_verified := some "2024-01-15", operatingName := none }

/-- An additional filter-matching branch at a third location. -/
def bSprings : Branch :=
  { name := some "WESCO Distribution", chain := some "WESCO",
    city := some "Colorado Springs", address1 := some "2120 N Nevada Ave",
    phone := none, last_verified := none, operatingName := none }

/-- A branch that does not match the WESCO/KVA filter. -/
def bOther : Branch :=
  { name := some "Front Range Fasteners", chain := some "FRF",
    city := some "Denver", address1 := some "900 Broadway",
    phone := none, last_verified := none, operatingName := none }

/-- A filter-matching branch with a missing `address1` field. -/
def bNoAddr : Branch :=
  { name := some "WESCO Supply", chain := some "WESCO", city := some "Denver",
    address1 := none, phone := none, last_verified := none, operatingName := none }

/-- Another filter-matching branch with a missing `address1` field. -/
def bNoAddrKva : Branch :=
  { name := some "KVA Electric", chain := none, city := some "Aurora",
    address1 := none, phone := none, last_verified := none, operatingName := none }

/-- The clean dataset: base directory present, one file missing, the two
expected entries and one non-matching branch. -/
def dsGood : Dataset :=
  { baseDirExists := true,
    files := [some { fname := "us/co/denver-metro.json", branches := [bDenver, bOther] },
              none,
              some { fname := "us/co/electrical/pueblo-south.json", branches := [bPueblo] }] }

/-- Like `dsGood` but with a third filter-matching location. -/
def dsExtra : Dataset :=
  { baseDirExists := true,
    files := [some { fname := "us/co/denver-metro.json", branches := [bDenver, bOther] },
              some { fname := "us/co/electrical/colorado-springs-metro.json",
                     branches := [bSprings] },
              some { fname := "us/co/electrical/pueblo-south.json", branches := [bPueblo] }] }

/-- Base directory present, every expected file missing. -/
def dsAllMissing : Dataset :=
  { baseDirExists := true, files := [none, none, none, none, none, none] }

/-- A dataset whose single matching branch has no `address1`. -/
def dsCrash : Dataset :=
  { baseDirExists := true,
    files := [some { fname := "us/co/denver-metro.json", branches := [bNoAddr] }] }

/-- A second dataset whose single matching branch has no `address1`. -/
def dsCrashKva : Dataset :=
  { baseDirExists := true,
    files := [some { fname := "us/co/electrical/denver-metro.json",
                     branches := [bNoAddrKva] }] }

/-- A matched Denver entry at the expected address with the wrong name. -/
def eDenverBad : Entry :=
  { file := "us/co/denver-metro.json", name := some "WESCO", chain := some "WESCO",
    city := some "Denver", address := some "11198 E 45th Ave", phone := none,
    verified := none, operating_name := none }

/-- A matched Pueblo entry in the expected state. -/
def ePuebloGood : Entry :=
  { file := "us/co/electrical/pueblo-south.json", name := some "WESCO",
    chain := some "WESCO", city := some "Pueblo", address := some "115 S Main St",
    phone := none, verified := none, operating_name := none }

/-- A matched entry at the removed address `756 S Jason St`. -/
def eJason : Entry :=
  { file := "us/co/denver-metro.json", name := some "WESCO", chain := some "WESCO",
    city := some "Denver", address := some "756 S Jason St", phone := none,
    verified := none, operating_name := none }

/-! ## Helper lemmas -/

theorem filterE_ok (p : Entry → Except Unit Bool) (q : Entry → Bool)
    (es : List Entry) (h : ∀ e ∈ es, p e = Except.ok (q e)) :
    filterE p es = Except.ok (es.filter q) := by
  induction es with
  | nil => rfl
  | cons e es ih =>
    have he := h e (List.mem_cons_self e es)
    have hrest := ih (fun x hx => h x (List.mem_cons_of_mem e hx))
    simp only [filterE, he, hrest, List.filter_cons]

theorem filterE_error (p : Entry → Except Unit Bool)
    (es : List Entry) (h : ∃ e ∈ es, p e = Except.error ()) :
    filterE p es = Except.error () := by
  induction es with
  | nil => simp at h
  | cons e es ih =>
    obtain ⟨x, hx, hpx⟩ := h
    rcases List.mem_cons.mp hx with rfl | hx2
    · simp [filterE, hpx]
    · cases hpe : p e with
      | error u => cases u; simp [filterE, hpe]
      | ok b => simp [filterE, hpe, ih ⟨x, hx2, hpx⟩]

theorem cityAddrTest_ok (city sub : String) (e : Entry)
    (h : e.city = some city → e.address ≠ none) :
    cityAddrTest city sub e = Except.ok (cityAddrMatches city sub e) := by
  unfold cityAddrTest cityAddrMatches
  by_cases hc : e.city = some city
  · have hbeq : (e.city == some city) = true := by simp [hc]
    cases ha : e.address with
    | none => exact absurd ha (h hc)
    | some a => simp [hbeq, ha]
  · have hbeq : (e.city == some city) = false := by simp [hc]
    simp [hbeq]

theorem addrTest_ok (sub : String) (e : Entry) (h : e.address ≠ none) :
    addrTest sub e = Except.ok (addrMatches sub e) := by
  unfold addrTest addrMatches
  cases ha : e.address with
  | none => exact absurd ha h
  | some a => simp [ha]

theorem addrTest_err (sub : String) (e : Entry) (h : e.address = none) :
    addrTest sub e = Except.error () := by
  unfold addrTest
  rw [h]

/-- On an aggregate where no substring test raises, the validation phase
completes and its flag is the conjunction of the six checklist items. -/
theorem runChecks_ok (es : List Entry) (H : ∀ e ∈ es, e.address ≠ none) :
    runChecks es = Except.ok (allChecks es) := by
  have hd : filterE (cityAddrTest "Denver" "11198 E 45th") es =
      Except.ok (es.filter (cityAddrMatches "Denver" "11198 E 45th")) :=
    filterE_ok _ _ es (fun e he => cityAddrTest_ok _ _ e (fun _ => H e he))
  have hp : filterE (cityAddrTest "Pueblo" "115 S Main") es =
      Except.ok (es.filter (cityAddrMatches "Pueblo" "115 S Main")) :=
    filterE_ok _ _ es (fun e he => cityAddrTest_ok _ _ e (fun _ => H e he))
  have h1 : filterE (addrTest "756 S Jason") es =
      Except.ok (es.filter (addrMatches "756 S Jason")) :=
    filterE_ok _ _ es (fun e he => addrTest_ok _ e (H e he))
  have h2 : filterE (addrTest "6883 E 47th") es =
      Except.ok (es.filter (addrMatches "6883 E 47th")) :=
    filterE_ok _ _ es (fun e he => addrTest_ok _ e (H e he))
  have h3 : filterE (addrTest "133 Commerce") es =
      Except.ok (es.filter (addrMatches "133 Commerce")) :=
    filterE_ok _ _ es (fun e he => addrTest_ok _ e (H e he))
  simp only [runChecks, hd, hp, h1, h2, h3]
  apply congrArg Except.ok
  simp only [allChecks, check_unique_count, check_denver, check_pueblo, check_removed]
  rw [show ((dedup es).length != 2) = !((dedup es).length == 2) from rfl]
  generalize ((dedup es).length == 2) = a
  generalize (denverCheckFull (es.filter (cityAddrMatches "Denver" "11198 E 45th"))).1 = b
  generalize puebloCheck (es.filter (cityAddrMatches "Pueblo" "115 S Main")) = c
  generalize (es.filter (addrMatches "756 S Jason")).isEmpty = d4
  generalize (es.filter (addrMatches "6883 E 47th")).isEmpty = d5
  generalize (es.filter (addrMatches "133 Commerce")).isEmpty = d6
  revert a b c d4 d5 d6
  decide

/-- An aggregated entry with a missing address makes the validation phase
raise a `TypeError`. -/
theorem runChecks_err (es : List Entry) (H : ∃ e ∈ es, e.address = none) :
    runChecks es = Except.error () := by
  obtain ⟨e, he, hae⟩ := H
  have h756 : filterE (addrTest "756 S Jason") es = Except.error () :=
    filterE_error _ es ⟨e, he, addrTest_err _ e hae⟩
  unfold runChecks
  cases hd : filterE (cityAddrTest "Denver" "11198 E 45th") es with
  | error u => cases u; simp [hd]
  | ok l1 =>
    cases hp : filterE (cityAddrTest "Pueblo" "115 S Main") es with
    | error u => cases u; simp [hd, hp]
    | ok l2 => simp [hd, hp, h756]

theorem runChecks_ok_addr (es : List Entry) (b : Bool)
    (h : runChecks es = Except.ok b) : ∀ e ∈ es, e.address ≠ none := by
  intro e he hae
  rw [runChecks_err es ⟨e, he, hae⟩] at h
  exact Except.noConfusion h

/-- A completed validation phase returns exactly the conjunction of the
six checklist items. -/
theorem runChecks_ok_eq (es : List Entry) (b : Bool)
    (h : runChecks es = Except.ok b) : b = allChecks es := by
  have H := runChecks_ok_addr es b h
  rw [runChecks_ok es H] at h
  exact (Except.ok.inj h).symm

theorem denverCheckFull_fst_true (entry : Entry) (rest : List Entry)
    (h : (entry :: rest).all
      (fun e => e.name == some "KVA Supply Co" && e.chain == some "WESCO") = true) :
    (denverCheckFull (entry :: rest)).1 = true := by
  have hh := List.all_eq_true.mp h entry (List.mem_cons_self entry rest)
  rw [Bool.and_eq_true] at hh
  obtain ⟨hn, hc⟩ := hh
  simp [denverCheckFull, h, hn, hc, bne]
  split <;> rfl

theorem denverCheckFull_fst_false (entry : Entry) (rest : List Entry)
    (h : (entry :: rest).all
      (fun e => e.name == some "KVA Supply Co" && e.chain == some "WESCO") = false) :
    (denverCheckFull (entry :: rest)).1 = false := by
  unfold denverCheckFull
  simp [h]

theorem lookup_append (k : String) (l1 l2 : List (String × Entry)) :
    List.lookup k (l1 ++ l2) = (List.lookup k l1).or (List.lookup k l2) := by
  induction l1 with
  | nil => simp [List.lookup]
  | cons p l1 ih =>
    obtain ⟨a, v⟩ := p
    by_cases h : (k == a) = true
    · simp [List.lookup, h]
    · simp only [Bool.not_eq_true] at h
      simp [List.lookup, h, ih]

theorem lookup_ne_none_of_any (k : String) (acc : List (String × Entry))
    (h : acc.any (fun p => p.1 == k) = true) : List.lookup k acc ≠ none := by
  induction acc with
  | nil => simp at h
  | cons p acc ih =>
    obtain ⟨a, v⟩ := p
    have h2 : (a == k) = true ∨ acc.any (fun p => p.1 == k) = true := by
      simpa using h
    rcases h2 with ha | hrest
    · have : k = a := (beq_iff_eq.mp ha).symm
      simp [List.lookup, this]
    · by_cases hk : (k == a) = true
      · simp [List.lookup, hk]
      · simp only [Bool.not_eq_true] at hk
        simp [List.lookup, hk, ih hrest]

theorem lookup_single (k a : String) (v : Entry) :
    List.lookup k [(a, v)] = if (k == a) = true then some v else none := by
  by_cases h : (k == a) = true
  · simp [List.lookup, h]
  · simp only [Bool.not_eq_true] at h
    simp [List.lookup, h]

/-- The dict loop of lines 94-97, relative to an arbitrary starting
accumulator: a key's binding is its binding in the accumulator if
present, else the first entry of the list with that key. -/
theorem dedupFrom_lookup (k : String) (es : List Entry) :
    ∀ acc : List (String × Entry),
      List.lookup k (dedupFrom acc es) =
        (List.lookup k acc).or (es.find? (fun e => locKey e == k)) := by
  induction es with
  | nil => intro acc; simp [dedupFrom]
  | cons e es ih =>
    intro acc
    unfold dedupFrom
    by_cases hmem : acc.any (fun p => p.1 == locKey e) = true
    · rw [if_pos hmem, ih acc, List.find?_cons]
      by_cases hk : (locKey e == k) = true
      · have hke : locKey e = k := beq_iff_eq.mp hk
        subst hke
        obtain ⟨v, hv⟩ := Option.ne_none_iff_exists.mp (lookup_ne_none_of_any _ acc hmem)
        simp [← hv, hk]
      · simp only [Bool.not_eq_true] at hk
        simp [hk]
    · rw [if_neg hmem, ih (acc ++ [(locKey e, e)]), lookup_append, lookup_single,
        List.find?_cons, Option.or_assoc]
      by_cases hk : (locKey e == k) = true
      · have hke : (k == locKey e) = true := by
          rw [beq_iff_eq]; exact (beq_iff_eq.mp hk).symm
        simp [hk, hke]
      · have hke : (k == locKey e) = false := by
          rw [beq_eq_false_iff_ne]
          exact fun hkk => (by simp [hkk] at hk)
        simp only [Bool.not_eq_true] at hk
        simp [hk, hke]

/-- Keys present in the accumulator after running the dict loop. -/
theorem dedupFrom_keys_mem (k : String) (es : List Entry) :
    ∀ acc : List (String × Entry),
      (k ∈ (dedupFrom acc es).map Prod.fst ↔
        k ∈ acc.map Prod.fst ∨ k ∈ es.map locKey) := by
  induction es with
  | nil => intro acc; simp [dedupFrom]
  | cons e es ih =>
    intro acc
    unfold dedupFrom
    by_cases hmem : acc.any (fun p => p.1 == locKey e) = true
    · rw [if_pos hmem, ih acc]
      have hin : locKey e ∈ acc.map Prod.fst := by
        obtain ⟨p, hp, hpe⟩ := List.any_eq_true.mp hmem
        exact List.mem_map.mpr ⟨p, hp, beq_iff_eq.mp hpe⟩
      simp only [List.map_cons, List.mem_cons]
      constructor
      · rintro (h | h)
        · exact Or.inl h
        · exact Or.inr (Or.inr h)
      · rintro (h | rfl | h)
        · exact Or.inl h
        · exact Or.inl hin
        · exact Or.inr h
    · rw [if_neg hmem, ih (acc ++ [(locKey e, e)])]
      simp only [List.map_append, List.map_cons, List.mem_append, List.mem_cons,
        List.map_nil, List.mem_singleton]
      tauto

/-- The dict loop never duplicates a key. -/
theorem dedupFrom_keys_nodup (es : List Entry) :
    ∀ acc : List (String × Entry),
      (acc.map Prod.fst).Nodup → ((dedupFrom acc es).map Prod.fst).Nodup := by
  induction es with
  | nil => intro acc h; exact h
  | cons e es ih =>
    intro acc h
    unfold dedupFrom
    by_cases hmem : acc.any (fun p => p.1 == locKey e) = true
    · rw [if_pos hmem]; exact ih acc h
    · rw [if_neg hmem]
      apply ih
      rw [List.map_append]
      apply List.Nodup.append h (by simp)
      intro x hx hx2
      simp only [List.map_cons, List.map_nil, List.mem_singleton] at hx2
      subst hx2
      obtain ⟨p, hp, hpe⟩ := List.mem_map.mp hx
      exact hmem (List.any_eq_true.mpr ⟨p, hp, beq_iff_eq.mpr hpe⟩)

/-- The number of stored unique locations is the number of distinct keys. -/
theorem dedup_length_distinct (es : List Entry) :
    (dedup es).length = ((es.map locKey).dedup).length := by
  have h1 : ((dedup es).map Prod.fst).Nodup := dedupFrom_keys_nodup es [] (by simp)
  have h2 : ∀ k, k ∈ (dedup es).map Prod.fst ↔ k ∈ es.map locKey := by
    intro k
    have h := dedupFrom_keys_mem k es []
    simpa [dedup] using h
  have h3 : ((dedup es).map Prod.fst).toFinset = (es.map locKey).toFinset := by
    ext k
    simp only [List.mem_toFinset]
    exact h2 k
  calc (dedup es).length
      = ((dedup es).map Prod.fst).length := by simp
    _ = ((dedup es).map Prod.fst).toFinset.card := (List.toFinset_card_of_nodup h1).symm
    _ = (es.map locKey).toFinset.card := by rw [h3]
    _ = ((es.map locKey).dedup).toFinset.card := by
          rw [List.toFinset.ext (fun x => List.mem_dedup.symm)]
    _ = ((es.map locKey).dedup).length := List.toFinset_card_of_nodup (List.nodup_dedup _)

theorem dedup_pair (x y : Entry) (h : locKey x ≠ locKey y) :
    dedup [x, y] = [(locKey x, x), (locKey y, y)] := by
  have hne : (locKey x == locKey y) = false := beq_eq_false_iff_ne.mpr h
  simp [dedup, dedupFrom, hne]

/-- A two-entry aggregate consisting of the expected Denver entry and the
expected Pueblo entry, in either order, passes all six checklist items. -/
theorem allChecks_denver_pueblo (x y : Entry)
    (hXn : x.name = some "KVA Supply Co") (hXc : x.chain = some "WESCO")
    (hXci : x.city = some "Denver") (hXa : x.address = some "11198 E 45th Ave")
    (_hYn : y.name = some "WESCO") (hYc : y.chain = some "WESCO")
    (hYci : y.city = some "Pueblo") (hYa : y.address = some "115 S Main St") :
    allChecks [x, y] = true ∧ allChecks [y, x] = true := by
  have hkx : locKey x = "Denver-11198 E 45th Ave" := by
    unfold locKey
    rw [hXci, hXa]
    decide
  have hky : locKey y = "Pueblo-115 S Main St" := by
    unfold locKey
    rw [hYci, hYa]
    decide
  have hne : locKey x ≠ locKey y := by
    rw [hkx, hky]
    decide
  have hu1 : check_unique_count [x, y] = true := by
    unfold check_unique_count
    rw [dedup_pair x y hne]
    rfl
  have hu2 : check_unique_count [y, x] = true := by
    unfold check_unique_count
    rw [dedup_pair y x (Ne.symm hne)]
    rfl
  have hdx : cityAddrMatches "Denver" "11198 E 45th" x = true := by
    unfold cityAddrMatches
    rw [hXci, hXa]
    decide
  have hdy : cityAddrMatches "Denver" "11198 E 45th" y = false := by
    unfold cityAddrMatches
    rw [hYci, hYa]
    decide
  have hpx : cityAddrMatches "Pueblo" "115 S Main" x = false := by
    unfold cityAddrMatches
    rw [hXci, hXa]
    decide
  have hpy : cityAddrMatches "Pueblo" "115 S Main" y = true := by
    unfold cityAddrMatches
    rw [hYci, hYa]
    decide
  have hall : [x].all
      (fun e => e.name == some "KVA Supply Co" && e.chain == some "WESCO") = true := by
    simp [hXn, hXc]
  have hd1 : check_denver [x, y] = true := by
    unfold check_denver
    rw [show [x, y].filter (cityAddrMatches "Denver" "11198 E 45th") = [x] by
      simp [List.filter_cons, hdx, hdy]]
    exact denverCheckFull_fst_true x [] hall
  have hd2 : check_denver [y, x] = true := by
    unfold check_denver
    rw [show [y, x].filter (cityAddrMatches "Denver" "11198 E 45th") = [x] by
      simp [List.filter_cons, hdx, hdy]]
    exact denverCheckFull_fst_true x [] hall
  have hp1 : check_pueblo [x, y] = true := by
    unfold check_pueblo
    rw [show [x, y].filter (cityAddrMatches "Pueblo" "115 S Main") = [y] by
      simp [List.filter_cons, hpx, hpy]]
    simp [puebloCheck, hYc]
  have hp2 : check_pueblo [y, x] = true := by
    unfold check_pueblo
    rw [show [y, x].filter (cityAddrMatches "Pueblo" "115 S Main") = [y] by
      simp [List.filter_cons, hpx, hpy]]
    simp [puebloCheck, hYc]
  have hrx1 : addrMatches "756 S Jason" x = false := by
    unfold addrMatches
    rw [hXa]
    decide
  have hrx2 : addrMatches "6883 E 47th" x = false := by
    unfold addrMatches
    rw [hXa]
    decide
  have hrx3 : addrMatches "133 Commerce" x = false := by
    unfold addrMatches
    rw [hXa]
    decide
  have hry1 : addrMatches "756 S Jason" y = false := by
    unfold addrMatches
    rw [hYa]
    decide
  have hry2 : addrMatches "6883 E 47th" y = false := by
    unfold addrMatches
    rw [hYa]
    decide
  have hry3 : addrMatches "133 Commerce" y = false := by
    unfold addrMatches
    rw [hYa]
    decide
  have hr1 : ∀ sub, addrMatches sub x = false → addrMatches sub y = false →
      check_removed sub [x, y] = true ∧ check_removed sub [y, x] = true := by
    intro sub hx2 hy2
    constructor <;> (unfold check_removed; simp [List.filter_cons, hx2, hy2])
  obtain ⟨hc11, hc12⟩ := hr1 "756 S Jason" hrx1 hry1
  obtain ⟨hc21, hc22⟩ := hr1 "6883 E 47th" hrx2 hry2
  obtain ⟨hc31, hc32⟩ := hr1 "133 Commerce" hrx3 hry3
  constructor
  · simp [allChecks, hu1, hd1, hp1, hc11, hc21, hc31]
  · simp [allChecks, hu2, hd2, hp2, hc12, hc22, hc32]

/-! ## Claims -/

/-- C1 (counterexample): a dataset whose files contain exactly one
filter-matching Denver entry in the expected state, exactly one
filter-matching Pueblo entry in the expected state, and no matching entry
at any forbidden address, on which the run nevertheless fails (a third
matching location breaks the unique-count check). -/
theorem c1_counterexample :
    ((allWescoEntries dsExtra.files).filter (fun e =>
        e.city == some "Denver" && e.name == some "KVA Supply Co" &&
          e.chain == some "WESCO" && e.address == some "11198 E 45th Ave")).length = 1
    ∧ ((allWescoEntries dsExtra.files).filter (fun e =>
        e.city == some "Pueblo" && e.name == some "WESCO" &&
          e.chain == some "WESCO" && e.address == some "115 S Main St")).length = 1
    ∧ ((allWescoEntries dsExtra.files).filter (fun e =>
        addrMatches "756 S Jason" e || addrMatches "6883 E 47th" e ||
          addrMatches "133 Commerce" e)).length = 0
    ∧ verify_wesco_cleanup dsExtra = Outcome.completed false
    ∧ exitStatus (verify_wesco_cleanup dsExtra) = 1 := by
  decide

/-- C1 (amended): if the base directory exists and the aggregated matched
entries are exactly one Denver entry in the expected state and one Pueblo
entry in the expected state, and nothing else, then the run succeeds and
exits with status 0. -/
theorem c1_amended (d : Dataset) (eD eP : Entry)
    (hb : d.baseDirExists = true)
    (hDn : eD.name = some "KVA Supply Co") (hDc : eD.chain = some "WESCO")
    (hDci : eD.city = some "Denver") (hDa : eD.address = some "11198 E 45th Ave")
    (hPn : eP.name = some "WESCO") (hPc : eP.chain = some "WESCO")
    (hPci : eP.city = some "Pueblo") (hPa : eP.address = some "115 S Main St")
    (hes : allWescoEntries d.files = [eD, eP] ∨ allWescoEntries d.files = [eP, eD]) :
    verify_wesco_cleanup d = Outcome.completed true ∧
      exitStatus (verify_wesco_cleanup d) = 0 := by
  obtain ⟨hA1, hA2⟩ := allChecks_denver_pueblo eD eP hDn hDc hDci hDa hPn hPc hPci hPa
  have haddrD : eD.address ≠ none := by rw [hDa]; simp
  have haddrP : eP.address ≠ none := by rw [hPa]; simp
  have h1 : ∀ e ∈ ([eD, eP] : List Entry), e.address ≠ none := by
    intro e he
    rcases List.mem_cons.mp he with rfl | he2
    · exact haddrD
    · rw [List.mem_singleton] at he2
      subst he2
      exact haddrP
  have h2 : ∀ e ∈ ([eP, eD] : List Entry), e.address ≠ none := by
    intro e he
    rcases List.mem_cons.mp he with rfl | he2
    · exact haddrP
    · rw [List.mem_singleton] at he2
      subst he2
      exact haddrD
  have hrc : runChecks (allWescoEntries d.files) = Except.ok true := by
    rcases hes with h | h
    · rw [h, runChecks_ok _ h1, hA1]
    · rw [h, runChecks_ok _ h2, hA2]
  have hv : verify_wesco_cleanup d = Outcome.completed true := by
    simp [verify_wesco_cleanup, hb, hrc]
  exact ⟨hv, by rw [hv]; rfl⟩

/-- C1 witness: the amended claim evaluated on a concrete clean dataset. -/
theorem c1_amended_witness :
    verify_wesco_cleanup dsGood = Outcome.completed true ∧
      exitStatus (verify_wesco_cleanup dsGood) = 0 :=
  c1_amended dsGood (toEntry "us/co/denver-metro.json" bDenver)
    (toEntry "us/co/electrical/pueblo-south.json" bPueblo)
    rfl rfl rfl rfl rfl rfl rfl rfl rfl (Or.inl (by decide))

/-- C2 (counterexample): a run on which the validation phase starts (base
directory present, nonempty aggregate) but aborts with a `TypeError`, so
not every checklist item is evaluated and no flag is returned. -/
theorem c2_counterexample :
    dsCrashKva.baseDirExists = true
    ∧ allWescoEntries dsCrashKva.files ≠ []
    ∧ runChecks (allWescoEntries dsCrashKva.files) = Except.error ()
    ∧ verify_wesco_cleanup dsCrashKva = Outcome.typeError := by
  exact ⟨rfl, by decide, rfl, by decide⟩

/-- C2 (amended): provided no aggregated entry lacks an address (which
would abort validation with a `TypeError`), every checklist item is
evaluated, the returned flag is the conjunction of all items, and the
exit status is 0 exactly when the flag is true. -/
theorem c2_amended (d : Dataset) (hb : d.baseDirExists = true)
    (H : ∀ e ∈ allWescoEntries d.files, e.address ≠ none) :
    runChecks (allWescoEntries d.files) =
      Except.ok (check_unique_count (allWescoEntries d.files) &&
        check_denver (allWescoEntries d.files) &&
        check_pueblo (allWescoEntries d.files) &&
        check_removed "756 S Jason" (allWescoEntries d.files) &&
        check_removed "6883 E 47th" (allWescoEntries d.files) &&
        check_removed "133 Commerce" (allWescoEntries d.files))
    ∧ verify_wesco_cleanup d = Outcome.completed (allChecks (allWescoEntries d.files))
    ∧ (exitStatus (verify_wesco_cleanup d) = 0 ↔
        allChecks (allWescoEntries d.files) = true) := by
  have hrc := runChecks_ok _ H
  have hv : verify_wesco_cleanup d =
      Outcome.completed (allChecks (allWescoEntries d.files)) := by
    simp [verify_wesco_cleanup, hb, hrc]
  refine ⟨hrc, hv, ?_⟩
  rw [hv]
  cases allChecks (allWescoEntries d.files) <;> simp [exitStatus]

/-- C2 witness: the amended claim evaluated on an empty file list. -/
theorem c2_amended_witness :
    verify_wesco_cleanup (Dataset.mk true []) =
      Outcome.completed (allChecks (allWescoEntries (Dataset.mk true []).files)) :=
  (c2_amended (Dataset.mk true []) rfl
    (by intro e he; simp [allWescoEntries] at he)).2.1

/-- C3: a branch record is included in a file's match set iff the
substring "WESCO" occurs case-sensitively in its chain field or its name
field, or "KVA" occurs in its name field, a missing field reading as the
empty string. -/
theorem c3_filter_membership (fd : FileData) (b : Branch) :
    b ∈ fd.branches.filter branchMatches ↔
      b ∈ fd.branches ∧
        ("WESCO".data <:+: (b.chain.getD "").data ∨
          "WESCO".data <:+: (b.name.getD "").data ∨
          "KVA".data <:+: (b.name.getD "").data) := by
  rw [List.mem_filter]
  apply and_congr_right
  intro _
  simp [branchMatches, strContains, Bool.or_eq_true, decide_eq_true_eq, or_assoc]

/-- C4: deduplication maps each location key to the first aggregated
entry bearing it (a later entry never replaces the stored one), and the
unique-location count is the number of distinct keys. -/
theorem c4_dedup_first_wins (es : List Entry) (k : String) :
    List.lookup k (dedup es) = es.find? (fun e => locKey e == k)
    ∧ (dedup es).length = ((es.map locKey).dedup).length := by
  constructor
  · have h := dedupFrom_lookup k es []
    simpa [dedup] using h
  · exact dedup_length_distinct es

/-- C5 (counterexample): a missing input file does not cause an early
environment error — with the base directory present the checks still run
(here they complete, even succeed); and with all input files missing the
run completes with a failing checklist rather than an environment error. -/
theorem c5_counterexample :
    none ∈ dsGood.files ∧ dsGood.baseDirExists = true
    ∧ verify_wesco_cleanup dsGood = Outcome.completed true
    ∧ (∀ f ∈ dsAllMissing.files, f = none)
    ∧ verify_wesco_cleanup dsAllMissing = Outcome.completed false
    ∧ verify_wesco_cleanup dsAllMissing ≠ Outcome.envError := by
  decide

/-- C5 (amended): when the base directory is missing the run reports an
early fatal error and exits with status 1 without running validation;
when the base directory exists but every input file is missing, the
validation checks run on an empty aggregate, fail, and the run exits with
status 1 (it never claims success). -/
theorem c5_amended (d : Dataset) :
    (d.baseDirExists = false →
      verify_wesco_cleanup d = Outcome.envError ∧
        exitStatus (verify_wesco_cleanup d) = 1)
    ∧ (d.baseDirExists = true → (∀ f ∈ d.files, f = none) →
      verify_wesco_cleanup d = Outcome.completed false ∧
        exitStatus (verify_wesco_cleanup d) = 1) := by
  constructor
  · intro hb
    have hv : verify_wesco_cleanup d = Outcome.envError := by
      simp [verify_wesco_cleanup, hb]
    exact ⟨hv, by rw [hv]; rfl⟩
  · intro hb hall
    have hes : allWescoEntries d.files = [] := by
      have hfm : d.files.filterMap id = [] := by
        rw [List.filterMap_eq_nil_iff]
        intro f hf
        simp [hall f hf]
      simp [allWescoEntries, hfm]
    have hrc : runChecks (allWescoEntries d.files) = Except.ok false := by
      rw [hes]
      rfl
    have hv : verify_wesco_cleanup d = Outcome.completed false := by
      simp [verify_wesco_cleanup, hb, hrc]
    exact ⟨hv, by rw [hv]; rfl⟩

/-- C5 witness: the amended claim evaluated on a missing base directory. -/
theorem c5_amended_witness :
    verify_wesco_cleanup (Dataset.mk false []) = Outcome.envError ∧
      exitStatus (verify_wesco_cleanup (Dataset.mk false [])) = 1 :=
  (c5_amended (Dataset.mk false [])).1 rfl

/-- C6: a missing input file is skipped silently — removing it from the
file list changes neither the aggregated matches of the remaining present
files nor the run's outcome. -/
theorem c6_missing_file_skipped (b : Bool) (fs1 fs2 : List (Option FileData)) :
    allWescoEntries (fs1 ++ none :: fs2) = allWescoEntries (fs1 ++ fs2)
    ∧ verify_wesco_cleanup (Dataset.mk b (fs1 ++ none :: fs2)) =
        verify_wesco_cleanup (Dataset.mk b (fs1 ++ fs2)) := by
  have h : allWescoEntries (fs1 ++ none :: fs2) = allWescoEntries (fs1 ++ fs2) := by
    simp [allWescoEntries, List.filterMap_append, List.filterMap_cons]
  exact ⟨h, by simp [verify_wesco_cleanup, h]⟩

/-- C7: when at least one matched entry is at the Denver target address:
an inconsistent entry (wrong name or chain) makes the Denver check fail
and any completed run return false; if all such entries are consistent,
the Denver check passes, the completed run's flag does not depend on the
`operatingName` value, and a differing or absent `operatingName` merely
raises the warning flag. -/
theorem c7_denver_consistency (es : List Entry)
    (Hex : ∃ e ∈ es, cityAddrMatches "Denver" "11198 E 45th" e = true) :
    ((∃ e ∈ es, cityAddrMatches "Denver" "11198 E 45th" e = true ∧
        (e.name ≠ some "KVA Supply Co" ∨ e.chain ≠ some "WESCO")) →
      check_denver es = false ∧ ∀ b, runChecks es = Except.ok b → b = false)
    ∧ ((∀ e ∈ es, cityAddrMatches "Denver" "11198 E 45th" e = true →
        e.name = some "KVA Supply Co" ∧ e.chain = some "WESCO") →
      check_denver es = true
      ∧ (∀ b, runChecks es = Except.ok b →
          b = (check_unique_count es && check_pueblo es &&
            check_removed "756 S Jason" es && check_removed "6883 E 47th" es &&
            check_removed "133 Commerce" es))
      ∧ (∀ e0 rest, es.filter (cityAddrMatches "Denver" "11198 E 45th") = e0 :: rest →
          e0.operating_name ≠ some "KVA Supply Co" →
          (denverCheckFull (e0 :: rest)).2 = true)) := by
  obtain ⟨w, hw, hpw⟩ := Hex
  have hwf : w ∈ es.filter (cityAddrMatches "Denver" "11198 E 45th") :=
    List.mem_filter.mpr ⟨hw, hpw⟩
  constructor
  · rintro ⟨x, hx, hpx, hbad⟩
    have hxf : x ∈ es.filter (cityAddrMatches "Denver" "11198 E 45th") :=
      List.mem_filter.mpr ⟨hx, hpx⟩
    have hcd : check_denver es = false := by
      unfold check_denver
      cases hdk : es.filter (cityAddrMatches "Denver" "11198 E 45th") with
      | nil =>
        rw [hdk] at hxf
        simp at hxf
      | cons e0 rest =>
        cases hall : (e0 :: rest).all
            (fun e => e.name == some "KVA Supply Co" && e.chain == some "WESCO") with
        | false => exact denverCheckFull_fst_false e0 rest hall
        | true =>
          exfalso
          have hx3 := List.all_eq_true.mp hall x (hdk ▸ hxf)
          rw [Bool.and_eq_true] at hx3
          rcases hbad with hb1 | hb2
          · exact hb1 (beq_iff_eq.mp hx3.1)
          · exact hb2 (beq_iff_eq.mp hx3.2)
    refine ⟨hcd, ?_⟩
    intro b hb
    rw [runChecks_ok_eq es b hb]
    simp [allChecks, hcd]
  · intro Hcons
    have hall : (es.filter (cityAddrMatches "Denver" "11198 E 45th")).all
        (fun e => e.name == some "KVA Supply Co" && e.chain == some "WESCO") = true := by
      rw [List.all_eq_true]
      intro e hef
      obtain ⟨hee, hpe⟩ := List.mem_filter.mp hef
      obtain ⟨hn, hc⟩ := Hcons e hee hpe
      simp [hn, hc]
    have hcd : check_denver es = true := by
      unfold check_denver
      cases hdk : es.filter (cityAddrMatches "Denver" "11198 E 45th") with
      | nil =>
        rw [hdk] at hwf
        simp at hwf
      | cons e0 rest => exact denverCheckFull_fst_true e0 rest (hdk ▸ hall)
    refine ⟨hcd, ?_, ?_⟩
    · intro b hb
      rw [runChecks_ok_eq es b hb]
      simp [allChecks, hcd]
    · intro e0 rest hdk hop
      have hall2 : (e0 :: rest).all
          (fun e => e.name == some "KVA Supply Co" && e.chain == some "WESCO") = true :=
        hdk ▸ hall
      have h0 := List.all_eq_true.mp hall2 e0 (List.mem_cons_self e0 rest)
      rw [Bool.and_eq_true] at h0
      have hopb : (e0.operating_name == some "KVA Supply Co") = false :=
        beq_eq_false_iff_ne.mpr hop
      simp [denverCheckFull, hall2, bne, h0.1, h0.2, hopb]

/-- C7 witness: the inconsistent branch of the claim evaluated on a
concrete Denver entry with the wrong name. -/
theorem c7_witness :
    check_denver [eDenverBad] = false ∧
      ∀ b, runChecks [eDenverBad] = Except.ok b → b = false :=
  (c7_denver_consistency [eDenverBad]
      ⟨eDenverBad, List.mem_singleton.mpr rfl, by decide⟩).1
    ⟨eDenverBad, List.mem_singleton.mpr rfl, by decide, Or.inl (by decide)⟩

/-- C8: the Pueblo check passes iff exactly one matched entry (before
deduplication) is at the Pueblo target address and its chain is "WESCO";
whenever it fails, any completed run returns false. -/
theorem c8_pueblo_check (es : List Entry) :
    (check_pueblo es = true ↔
      ∃ e, es.filter (cityAddrMatches "Pueblo" "115 S Main") = [e] ∧
        e.chain = some "WESCO")
    ∧ (check_pueblo es = false → ∀ b, runChecks es = Except.ok b → b = false) := by
  constructor
  · unfold check_pueblo
    cases hf : es.filter (cityAddrMatches "Pueblo" "115 S Main") with
    | nil => simp [puebloCheck]
    | cons e0 rest =>
      cases rest with
      | nil =>
        constructor
        · intro h
          refine ⟨e0, rfl, ?_⟩
          by_contra hc
          have hbne : (e0.chain != some "WESCO") = true := bne_iff_ne.mpr hc
          simp [puebloCheck, hbne] at h
        · rintro ⟨e, he, hchain⟩
          have he0 : e0 = e := (List.cons.injEq e0 [] e []).mp he |>.1
          subst he0
          simp [puebloCheck, hchain]
      | cons e1 rest2 =>
        simp only [puebloCheck]
        constructor
        · intro h
          exact absurd h (by simp)
        · rintro ⟨e, he, hchain⟩
          exact absurd ((List.cons.injEq e0 (e1 :: rest2) e []).mp he).2 (by simp)
  · intro hF b hb
    rw [runChecks_ok_eq es b hb]
    simp [allChecks, hF]

/-- C8 witness: the claim's characterization evaluated on a concrete
single-entry Pueblo aggregate. -/
theorem c8_witness : check_pueblo [ePuebloGood] = true :=
  (c8_pueblo_check [ePuebloGood]).1.mpr ⟨ePuebloGood, by decide, rfl⟩

/-- C9: for each of the three forbidden address substrings, a matched
entry whose address contains it makes the corresponding removed-entry
check fail and any completed run return false; if no matched entry's
address contains it, that check passes. -/
theorem c9_removed_addresses (a : String)
    (ha : a = "756 S Jason" ∨ a = "6883 E 47th" ∨ a = "133 Commerce")
    (es : List Entry) :
    ((∃ e ∈ es, ∃ s, e.address = some s ∧ a.data <:+: s.data) →
      check_removed a es = false ∧ ∀ b, runChecks es = Except.ok b → b = false)
    ∧ ((∀ e ∈ es, ∀ s, e.address = some s → ¬ a.data <:+: s.data) →
      check_removed a es = true) := by
  constructor
  · rintro ⟨e, he, s, hs, hsub⟩
    have hm : addrMatches a e = true := by
      unfold addrMatches
      rw [hs]
      simpa [strContains] using hsub
    have hef : e ∈ es.filter (addrMatches a) := List.mem_filter.mpr ⟨he, hm⟩
    have hcr : check_removed a es = false := by
      unfold check_removed
      cases hfa : es.filter (addrMatches a) with
      | nil =>
        rw [hfa] at hef
        simp at hef
      | cons x xs => rfl
    refine ⟨hcr, ?_⟩
    intro b hb
    rw [runChecks_ok_eq es b hb]
    rcases ha with rfl | rfl | rfl <;> simp [allChecks, hcr]
  · intro Hno
    have hfilter : es.filter (addrMatches a) = [] := by
      rw [List.filter_eq_nil_iff]
      intro e he
      cases hadr : e.address with
      | none =>
        rcases ha with rfl | rfl | rfl <;> (simp only [addrMatches, hadr]; decide)
      | some s =>
        have hns := Hno e he s hadr
        simp [addrMatches, hadr, strContains, hns]
    unfold check_removed
    rw [hfilter]
    rfl

/-- C9 witness: the failing branch of the claim evaluated at the address
substring "756 S Jason" on a concrete aggregate containing it. -/
theorem c9_witness : check_removed "756 S Jason" [eJason] = false :=
  ((c9_removed_addresses "756 S Jason" (Or.inl rfl) [eJason]).1
    ⟨eJason, List.mem_singleton.mpr rfl, "756 S Jason St", rfl, by decide⟩).1

/-- C10: an input whose single branch matches the filter but has no
`address1` makes the validation phase abort with an uncaught `TypeError`
instead of completing the checks. -/
theorem c10_missing_address_crash :
    branchMatches bNoAddr = true ∧ bNoAddr.address1 = none
    ∧ runChecks (allWescoEntries dsCrash.files) = Except.error ()
    ∧ verify_wesco_cleanup dsCrash = Outcome.typeError := by
  exact ⟨by decide, rfl, rfl, by decide⟩

end Wesco
